import Mathlib

/-!
Shallow embedding of `src/src/server/index.ts` (the `Chat` Durable Object of
nativor-chat-worker) and proofs about it.

Modelling conventions:
* JSON values are the inductive `Val`; `Val.null` models JS `null`.
* JS `Map<string, number>` (timer-handle maps) are association lists.
* `setTimeout` is modelled explicitly: arming a timer appends a `Timer`
  record (handle, connection id, kind, relative delay in ms) to the
  runtime's `pending` set; `clearTimeout h` removes the record with
  handle `h`; a fire removes the record and runs the callback body.
* The Durable Object's durable storage API is modelled by the `storage`
  field of `ChatState`; the source never calls it, so no handler touches it.
* `checkParticipant` performs external I/O (a fetch to the backend); its
  result for the call under consideration is passed to `onMessage` as the
  `check : AuthResult` argument.
* `Date.now()` at the moment a handler runs is the `now : Int` argument.
* partyserver's `Server.broadcast(msg, without?)` (third-party library)
  delivers to every live connection whose id is not in `without`; it is
  embedded as `broadcast` below.
-/

/-- JSON-like values as produced by `JSON.parse` / consumed by
`JSON.stringify` in the source. -/
inductive Val where
  | null : Val
  | bool : Bool → Val
  | num : Int → Val
  | str : String → Val
  | obj : List (String × Val) → Val

/-- JS truthiness test for a string-or-undefined value: `undefined` and the
empty string are falsy. -/
def strFalsy : Option String → Bool
  | none => true
  | some s => s == ""

/-- JS `a || b` on string-or-undefined values: yields `b` when `a` is
falsy (`undefined` or `""`). -/
def jsOr (a b : Option String) : Option String :=
  match a with
  | none => b
  | some s => if s == "" then b else some s

/-- JS truthiness of a `Val` (`null`, `false`, `0`, `""` are falsy;
every object is truthy). -/
def valFalsy : Val → Bool
  | .null => true
  | .bool b => !b
  | .num n => n == 0
  | .str s => s == ""
  | .obj _ => false

/-- Set a field of a JS object field list, as the object spread
`\x7b ...m, k: v \x7d` does: an existing key keeps its position and gets the
new value, a fresh key is appended. -/
def setField (fs : List (String × Val)) (k : String) (v : Val) : List (String × Val) :=
  if fs.any (fun p => p.1 == k) then
    fs.map (fun p => if p.1 == k then (k, v) else p)
  else fs ++ [(k, v)]

/-- The JS expression `\x7b ...message, before: prev \x7d` used to build the
broadcast payload. For an object it is the field update above; spreading a
non-object contributes no own enumerable properties (string index
properties are not modelled; no claim depends on spreading a string). -/
def spreadWithBefore (m : Val) (prev : Val) : Val :=
  match m with
  | .obj fs => .obj (setField fs "before" prev)
  | _ => .obj [("before", prev)]

/-- The two `setTimeout` kinds the source creates: the 10 s auth timeout
(`authTimers`) and the 30 s ping timeout (`pingTimers`). -/
inductive TimerKind where
  | auth : TimerKind
  | ping : TimerKind
deriving DecidableEq, Repr

/-- One live (scheduled, not yet cleared or fired) `setTimeout`. `delayMs`
is the relative delay the source passes to `setTimeout`; no absolute
wake-up time is part of the record, exactly as in the source. -/
structure Timer where
  handle : Nat
  connId : String
  kind : TimerKind
  delayMs : Nat
deriving DecidableEq, Repr

/-- A connection as the handlers see it: id plus the mutable `authed` and
`userId` properties the source attaches to the connection object. -/
structure Conn where
  id : String
  authed : Bool
  userId : Option String
deriving DecidableEq, Repr

/-- Association-list model of `Map<string, number>`. -/
def mapGet (m : List (String × Nat)) (k : String) : Option Nat :=
  (m.find? (fun p => p.1 == k)).map (fun p => p.2)

def mapSet (m : List (String × Nat)) (k : String) (v : Nat) : List (String × Nat) :=
  m.filter (fun p => p.1 != k) ++ [(k, v)]

def mapDelete (m : List (String × Nat)) (k : String) : List (String × Nat) :=
  m.filter (fun p => p.1 != k)

/-- State of one `Chat` Durable Object instance together with the pieces of
runtime it owns. `roomId`, `authTimers`, `pingTimers`, `lastMessage` are
the class fields; `conns` is the live connection set the host maintains;
`pending` is the runtime's set of scheduled timeouts; `storage` is the
durable storage the source never writes. -/
structure ChatState where
  roomId : Option String
  authTimers : List (String × Nat)
  pingTimers : List (String × Nat)
  lastMessage : Option Val
  conns : List Conn
  pending : List Timer
  nextHandle : Nat
  storage : List (String × Val)

/-- Effects a handler emits towards connections: `conn.send` of a payload
and `conn.close(code, reason)`. -/
inductive Effect where
  | send : String → Val → Effect
  | close : String → Nat → String → Effect

/-- `JSON.stringify(\x7b type: "error", code, message \x7d)` payload of
`sendError`. -/
def errVal (code msg : String) : Val :=
  .obj [("type", .str "error"), ("code", .str code), ("message", .str msg)]

/-- `Chat.sendError`. -/
def sendError (cid code msg : String) : Effect :=
  .send cid (errVal code msg)

/-- Close code `4401` the source uses for every admission failure. -/
def authFailCode : Nat := 4401

/-- Close code `1000` (normal closure) the source uses for the ping
timeout. -/
def normalCloseCode : Nat := 1000

/-- Look up a connection in the live set. -/
def lookupConn (conns : List Conn) (cid : String) : Option Conn :=
  conns.find? (fun c => c.id == cid)

/-- `conn.authed` as read by a callback for connection `cid`; a connection
no longer registered reads as unauthenticated (handlers are only invoked
for live connections, so this default is unreachable in real traces). -/
def connAuthed (conns : List Conn) (cid : String) : Bool :=
  ((lookupConn conns cid).map (fun c => c.authed)).getD false

/-- `conn.userId` as read for connection `cid`. -/
def connUserId (conns : List Conn) (cid : String) : Option String :=
  ((lookupConn conns cid).map (fun c => c.userId)).getD none

/-- Write `conn.authed = true; conn.userId = u` on the connection object. -/
def markAuthed (conns : List Conn) (cid : String) (u : Option String) : List Conn :=
  conns.map (fun c => if c.id == cid then { c with authed := true, userId := u } else c)

/-- partyserver `Server.broadcast(payload, without)`: send the payload to
every live connection whose id is not excluded. -/
def broadcast (conns : List Conn) (payload : Val) (without : List String) : List Effect :=
  (conns.filter (fun c => !(without.contains c.id))).map (fun c => Effect.send c.id payload)

/-- A client message after `JSON.parse` succeeded: the fields the source
reads off it. `none` for an absent field. -/
structure RawMsg where
  type : Option String
  token : Option String
  roomId : Option String
  userId : Option String
  t : Option Int
  isTyping : Bool

/-- Result of `Chat.checkParticipant` (the external verification call). -/
structure AuthResult where
  success : Bool
  userId : Option String

namespace Chat

/-- `Chat.onConnect`: the host registers the connection, the handler binds
`this.roomId = this.roomId ?? extractedRoomId ?? "default"`, sends the
auth hint, and arms the 10 s auth timeout, storing its handle in
`authTimers`. -/
def onConnect (s : ChatState) (c : Conn) (extractedRoomId : Option String) :
    ChatState × List Effect :=
  let s0 := { s with conns := s.conns ++ [c] }
  let rid :=
    match s0.roomId with
    | some r => some r
    | none =>
      match extractedRoomId with
      | some r => some r
      | none => some "default"
  let h := s0.nextHandle
  ({ s0 with
      roomId := rid
      pending := s0.pending ++ [⟨h, c.id, .auth, 10000⟩]
      authTimers := mapSet s0.authTimers c.id h
      nextHandle := h + 1 },
   [Effect.send c.id (.obj [("type", .str "info"), ("message", .str "please auth")])])

/-- The payload of the `typing` fan-out built in `onMessage`. -/
def typingPayload (s : ChatState) (cid : String) (isTyping : Bool) (now : Int) : Val :=
  .obj [("type", .str "typing"),
        ("userId", .str ((connUserId s.conns cid).getD "unknown")),
        ("isTyping", .bool isTyping),
        ("roomId", (s.roomId.map Val.str).getD .null),
        ("timestamp", .num now),
        ("before", s.lastMessage.getD .null)]

/-- `Chat.onMessage`. `parsed = none` models a `JSON.parse` failure;
`check` is the result the external verification call returns if the auth
branch reaches it; `now` is `Date.now()`. -/
def onMessage (s : ChatState) (cid : String) (parsed : Option RawMsg)
    (check : AuthResult) (now : Int) : ChatState × List Effect :=
  match parsed with
  | none => (s, [sendError cid "bad_json" "malformed json"])
  | some msg =>
    if strFalsy msg.type then (s, [sendError cid "bad_payload" "missing type"]) else
    if msg.type == some "auth" then
      if strFalsy msg.token then (s, [sendError cid "bad_payload" "token required"]) else
      match jsOr msg.roomId s.roomId with
      | none =>
          (s, [sendError cid "bad_payload" "roomId required",
               Effect.close cid authFailCode "roomId required"])
      | some rid =>
        if rid == "" then
          (s, [sendError cid "bad_payload" "roomId required",
               Effect.close cid authFailCode "roomId required"])
        else if !check.success then
          (s, [sendError cid "unauthorized" "not a participant",
               Effect.close cid authFailCode "unauthorized"])
        else
          -- success path: `this.roomId = roomId` (unconditional),
          -- `conn.authed = true`, `conn.userId = result.userId || msg.userId`
          let s1 := { s with
            roomId := some rid
            conns := markAuthed s.conns cid (jsOr check.userId msg.userId) }
          -- cancel the auth timeout if its handle is still in the map
          let s2 :=
            match mapGet s1.authTimers cid with
            | some h =>
                { s1 with
                    pending := s1.pending.filter (fun t => t.handle != h)
                    authTimers := mapDelete s1.authTimers cid }
            | none => s1
          -- arm the 30 s ping timeout; the map entry is overwritten but a
          -- previously armed ping timeout is NOT cleared
          let h := s2.nextHandle
          let s3 := { s2 with
            pending := s2.pending ++ [⟨h, cid, .ping, 30000⟩]
            pingTimers := mapSet s2.pingTimers cid h
            nextHandle := h + 1 }
          (s3, [Effect.send cid (.obj [("type", .str "auth:ok")])])
    else if !(connAuthed s.conns cid) then
      (s, [sendError cid "unauthorized" "auth first"])
    else if msg.type == some "ping" then
      -- clear the current ping timeout, arm a fresh one, answer with pong
      let s1 :=
        match mapGet s.pingTimers cid with
        | some h =>
            { s with
                pending := s.pending.filter (fun t => t.handle != h)
                pingTimers := mapDelete s.pingTimers cid }
        | none => s
      let h := s1.nextHandle
      let s2 := { s1 with
        pending := s1.pending ++ [⟨h, cid, .ping, 30000⟩]
        pingTimers := mapSet s1.pingTimers cid h
        nextHandle := h + 1 }
      (s2, [Effect.send cid (.obj [("type", .str "pong"), ("t", .num (msg.t.getD now))])])
    else if msg.type == some "typing" then
      (s, broadcast s.conns (typingPayload s cid msg.isTyping now) [cid])
    else
      (s, [sendError cid "unknown_type"
             ("unknown: " ++ ((msg.type).getD ""))])

/-- The 10 s auth-timeout callback for connection `cid`, firing as handle
`h`: the runtime removes the fired timeout; the callback sends the timeout
error and closes with 4401 iff the connection is still unauthenticated,
then deletes the map entry. -/
def fireAuthTimer (s : ChatState) (h : Nat) (cid : String) : ChatState × List Effect :=
  let s0 := { s with pending := s.pending.filter (fun t => t.handle != h) }
  let acts :=
    if connAuthed s0.conns cid then []
    else
      [sendError cid "unauthorized" "auth timeout",
       Effect.close cid authFailCode "auth required"]
  ({ s0 with authTimers := mapDelete s0.authTimers cid }, acts)

/-- The 30 s ping-timeout callback for connection `cid`, firing as handle
`h`: returns early when the connection is no longer authed; otherwise
sends the ping-timeout error, closes with 1000 and deletes the map
entry. -/
def firePingTimer (s : ChatState) (h : Nat) (cid : String) : ChatState × List Effect :=
  let s0 := { s with pending := s.pending.filter (fun t => t.handle != h) }
  if !(connAuthed s0.conns cid) then (s0, [])
  else
    ({ s0 with pingTimers := mapDelete s0.pingTimers cid },
     [sendError cid "ping_timeout" "ping timeout - connection will be closed",
      Effect.close cid normalCloseCode "ping timeout"])

/-- `Chat.onClose`: clear both timers of the connection; the host removes
the connection from the live set. -/
def onClose (s : ChatState) (cid : String) : ChatState :=
  let s1 :=
    match mapGet s.authTimers cid with
    | some h =>
        { s with
            pending := s.pending.filter (fun t => t.handle != h)
            authTimers := mapDelete s.authTimers cid }
    | none => s
  let s2 :=
    match mapGet s1.pingTimers cid with
    | some h =>
        { s1 with
            pending := s1.pending.filter (fun t => t.handle != h)
            pingTimers := mapDelete s1.pingTimers cid }
    | none => s1
  { s2 with conns := s2.conns.filter (fun c => c.id != cid) }

/-- Body of the `POST /broadcast` request, after `request.json()`. -/
structure BroadcastBody where
  roomId : Option String
  message : Option Val
  excludeConnectionIds : Option (List String)

/-- The expected `authorization` header value. -/
def bearer (secret : String) : String := "Bearer " ++ secret

/-- HTTP responses `onRequest` produces. -/
structure HttpResponse where
  status : Nat
  body : Val

def okResp : Val := .obj [("success", .bool true)]

def errResp (e : String) : Val := .obj [("success", .bool false), ("error", .str e)]

/-- `Chat.onRequest`. `secret` is `env.WEBHOOK_TOKEN`; `authHeader` is the
`authorization` header (`""` when absent, as `get(..) || ""`); `body` is
`none` when `request.json()` failed. -/
def onRequest (s : ChatState) (secret path method authHeader : String)
    (body : Option BroadcastBody) : ChatState × List Effect × HttpResponse :=
  if path == "/broadcast" && method == "POST" then
    if authHeader != bearer secret then
      (s, [], ⟨401, .str "Unauthorized"⟩)
    else
      match body with
      | none => (s, [], ⟨400, errResp "roomId and message required"⟩)
      | some b =>
        match b.roomId, b.message with
        | some rid, some m =>
          if rid == "" || valFalsy m then
            (s, [], ⟨400, errResp "roomId and message required"⟩)
          else
            -- `if (!this.roomId) this.roomId = body.roomId`
            let s1 := if strFalsy s.roomId then { s with roomId := some rid } else s
            if s1.roomId != some rid then
              (s1, [], ⟨400, errResp "wrong room instance"⟩)
            else
              let payload := spreadWithBefore m (s1.lastMessage.getD .null)
              let acts := broadcast s1.conns payload (b.excludeConnectionIds.getD [])
              ({ s1 with lastMessage := some m }, acts, ⟨200, okResp⟩)
        | _, _ => (s, [], ⟨400, errResp "roomId and message required"⟩)
  else if path == "/last-message" && method == "GET" then
    if authHeader != bearer secret then
      (s, [], ⟨401, .str "Unauthorized"⟩)
    else
      (s, [],
       ⟨200, .obj [("success", .bool true),
                   ("lastMessage", s.lastMessage.getD .null),
                   ("roomId", (s.roomId.map Val.str).getD .null)]⟩)
  else
    (s, [], ⟨404, .str "Not found"⟩)

end Chat

/-- Live (scheduled, uncleared, unfired) timeouts of a given kind owned by
a given connection. -/
def pendingOfKind (s : ChatState) (k : TimerKind) (cid : String) : List Timer :=
  s.pending.filter (fun t => t.kind == k && t.connId == cid)

/-! ## Concrete example states -/

/-- A hub bound to room "r1" with one unauthenticated connection `c1`
whose 10 s admission timer (handle 0) is live. -/
def hubAwaiting : ChatState :=
  ⟨some "r1", [("c1", 0)], [], none, [⟨"c1", false, none⟩], [⟨0, "c1", .auth, 10000⟩], 1, []⟩

/-- A hub bound to room "r1" with one authenticated connection `c1` whose
30 s ping timer (handle 5) is live — the state right after a successful
admission. -/
def hubAuthed : ChatState :=
  ⟨some "r1", [], [("c1", 5)], none, [⟨"c1", true, some "u1"⟩], [⟨5, "c1", .ping, 30000⟩], 6, []⟩

/-- A hub bound to room "r1" holding a cached last message and two
connections: `A` authenticated, `B` not yet authenticated. -/
def hubRoom : ChatState :=
  ⟨some "r1", [], [], some (.obj [("id", .str "m0")]),
   [⟨"A", true, some "uA"⟩, ⟨"B", false, none⟩], [], 0, []⟩

/-- An admission request message carrying token "tok". -/
def authReq (rm uid : Option String) : RawMsg :=
  ⟨some "auth", some "tok", rm, uid, none, false⟩

/-- A client `typing` message. -/
def typingReq : RawMsg := ⟨some "typing", none, none, none, none, true⟩

/-! ## Helper lemmas -/

theorem mapGet_mapSet (m : List (String × Nat)) (k : String) (v : Nat) :
    mapGet (mapSet m k v) k = some v := by
  unfold mapGet mapSet
  rw [List.find?_append]
  have h1 : (m.filter (fun p => p.1 != k)).find? (fun p => p.1 == k) = none := by
    rw [List.find?_eq_none]
    intro p hp
    have h2 := (List.mem_filter.mp hp).2
    simp only [bne_iff_ne, ne_eq] at h2
    simp [h2]
  simp [h1, List.find?]

theorem lookupConn_markAuthed (conns : List Conn) (cid : String) (u : Option String) :
    lookupConn (markAuthed conns cid u) cid =
      (lookupConn conns cid).map (fun c => { c with authed := true, userId := u }) := by
  unfold lookupConn markAuthed
  rw [List.find?_map]
  have hp : ((fun c : Conn => c.id == cid) ∘
        (fun c : Conn => if c.id == cid then { c with authed := true, userId := u } else c)) =
      (fun c : Conn => c.id == cid) := by
    funext c
    by_cases h : c.id = cid <;> simp [h]
  rw [hp]
  cases hf : conns.find? (fun c => c.id == cid) with
  | none => rfl
  | some c =>
    have hc := List.find?_some hf
    simp only [beq_iff_eq] at hc
    simp [hc]

theorem connAuthed_markAuthed (conns : List Conn) (cid : String) (u : Option String) (c : Conn)
    (hc : lookupConn conns cid = some c) :
    connAuthed (markAuthed conns cid u) cid = true := by
  unfold connAuthed
  rw [lookupConn_markAuthed, hc]
  rfl

theorem connUserId_markAuthed (conns : List Conn) (cid : String) (u : Option String) (c : Conn)
    (hc : lookupConn conns cid = some c) :
    connUserId (markAuthed conns cid u) cid = u := by
  unfold connUserId
  rw [lookupConn_markAuthed, hc]
  rfl

theorem broadcast_mem {conns : List Conn} {p : Val} {E : List String} {c : Conn}
    (hc : c ∈ conns) (he : E.contains c.id = false) :
    Effect.send c.id p ∈ broadcast conns p E := by
  unfold broadcast
  exact List.mem_map_of_mem _ (List.mem_filter.mpr ⟨hc, by simpa using he⟩)

theorem broadcast_excluded {conns : List Conn} {p : Val} {E : List String} {cid : String} {v : Val}
    (he : E.contains cid = true) :
    Effect.send cid v ∉ broadcast conns p E := by
  intro hmem
  unfold broadcast at hmem
  obtain ⟨c, hc, heq⟩ := List.mem_map.mp hmem
  have hid : c.id = cid := by
    cases heq
    rfl
  have hfil := (List.mem_filter.mp hc).2
  rw [hid] at hfil
  have hin : cid ∈ E := by simpa using he
  have hout : cid ∉ E := by simpa using hfil
  exact hout hin

theorem onMessage_unauth_reject (s : ChatState) (cid : String) (msg : RawMsg)
    (check : AuthResult) (now : Int) (ty : String)
    (hty : msg.type = some ty) (hne : ty ≠ "") (hna : ty ≠ "auth")
    (hu : connAuthed s.conns cid = false) :
    Chat.onMessage s cid (some msg) check now =
      (s, [sendError cid "unauthorized" "auth first"]) := by
  unfold Chat.onMessage
  simp [hty, strFalsy, hne, hna, hu]

theorem onMessage_typing_eq (s : ChatState) (cid : String) (msg : RawMsg)
    (check : AuthResult) (now : Int)
    (hty : msg.type = some "typing") (ha : connAuthed s.conns cid = true) :
    Chat.onMessage s cid (some msg) check now =
      (s, broadcast s.conns (Chat.typingPayload s cid msg.isTyping now) [cid]) := by
  unfold Chat.onMessage
  simp [hty, strFalsy, ha]

theorem onRequest_broadcast_eq (s : ChatState) (secret rid : String) (m : Val)
    (E : Option (List String))
    (hrid : rid ≠ "") (hm : valFalsy m = false)
    (hroom : strFalsy s.roomId = true ∨ s.roomId = some rid) :
    Chat.onRequest s secret "/broadcast" "POST" (Chat.bearer secret)
        (some ⟨some rid, some m, E⟩) =
      ({ s with roomId := some rid, lastMessage := some m },
       broadcast s.conns (spreadWithBefore m (s.lastMessage.getD .null)) (E.getD []),
       ⟨200, Chat.okResp⟩) := by
  obtain ⟨roomId, authT, pingT, lastM, conns, pending, nh, st⟩ := s
  unfold Chat.onRequest
  rcases hroom with hroom | hroom
  · simp_all [strFalsy, hrid, hm]
  · simp_all [strFalsy, hrid, hm]

theorem onMessage_storage (s : ChatState) (cid : String) (parsed : Option RawMsg)
    (check : AuthResult) (now : Int) :
    (Chat.onMessage s cid parsed check now).1.storage = s.storage := by
  unfold Chat.onMessage
  cases parsed with
  | none => rfl
  | some msg =>
    dsimp only
    repeat' split
    all_goals rfl

theorem onRequest_storage (s : ChatState) (secret path method hdr : String)
    (body : Option Chat.BroadcastBody) :
    (Chat.onRequest s secret path method hdr body).1.storage = s.storage := by
  unfold Chat.onRequest
  repeat' (first | rfl | split | dsimp only)

theorem onMessage_conns_nonauth (s : ChatState) (cid : String) (parsed : Option RawMsg)
    (check : AuthResult) (now : Int)
    (hna : ∀ msg, parsed = some msg → msg.type ≠ some "auth") :
    (Chat.onMessage s cid parsed check now).1.conns = s.conns := by
  unfold Chat.onMessage
  cases parsed with
  | none => rfl
  | some msg =>
    have hb : (msg.type == some "auth") = false :=
      beq_eq_false_iff_ne.mpr (hna msg rfl)
    dsimp only
    rw [hb]
    repeat' (first | rfl | split | dsimp only)
    all_goals simp_all

theorem mapGet_mapDelete (m : List (String × Nat)) (k : String) :
    mapGet (mapDelete m k) k = none := by
  unfold mapGet mapDelete
  have h : (m.filter (fun p => p.1 != k)).find? (fun p => p.1 == k) = none := by
    rw [List.find?_eq_none]
    intro p hp
    have h2 := (List.mem_filter.mp hp).2
    simp only [bne_iff_ne, ne_eq] at h2
    simp [h2]
  rw [h]
  rfl

theorem onMessage_auth_success_noTimer (s : ChatState) (cid tok : String)
    (rm uid : Option String) (t0 : Option Int) (b : Bool) (check : AuthResult)
    (now : Int) (rid : String)
    (htok : tok ≠ "") (hrid : jsOr rm s.roomId = some rid) (hrne : rid ≠ "")
    (hsucc : check.success = true)
    (hat : mapGet s.authTimers cid = none) :
    Chat.onMessage s cid (some ⟨some "auth", some tok, rm, uid, t0, b⟩) check now =
      ({ s with roomId := some rid
                conns := markAuthed s.conns cid (jsOr check.userId uid)
                pending := s.pending ++ [⟨s.nextHandle, cid, .ping, 30000⟩]
                pingTimers := mapSet s.pingTimers cid s.nextHandle
                nextHandle := s.nextHandle + 1 },
       [Effect.send cid (.obj [("type", .str "auth:ok")])]) := by
  unfold Chat.onMessage
  simp [strFalsy, htok, hrid, hrne, hsucc, hat]

theorem onMessage_auth_success_withTimer (s : ChatState) (cid tok : String)
    (rm uid : Option String) (t0 : Option Int) (b : Bool) (check : AuthResult)
    (now : Int) (rid : String) (h0 : Nat)
    (htok : tok ≠ "") (hrid : jsOr rm s.roomId = some rid) (hrne : rid ≠ "")
    (hsucc : check.success = true)
    (hat : mapGet s.authTimers cid = some h0) :
    Chat.onMessage s cid (some ⟨some "auth", some tok, rm, uid, t0, b⟩) check now =
      ({ s with roomId := some rid
                conns := markAuthed s.conns cid (jsOr check.userId uid)
                authTimers := mapDelete s.authTimers cid
                pending := s.pending.filter (fun t => t.handle != h0) ++
                  [⟨s.nextHandle, cid, .ping, 30000⟩]
                pingTimers := mapSet s.pingTimers cid s.nextHandle
                nextHandle := s.nextHandle + 1 },
       [Effect.send cid (.obj [("type", .str "auth:ok")])]) := by
  unfold Chat.onMessage
  simp [strFalsy, htok, hrid, hrne, hsucc, hat]

theorem filter_ping_of_disj (l : List Timer) (cid : String) (h0 : Nat)
    (hd : ∀ t ∈ l, t.kind = TimerKind.ping → t.connId = cid → t.handle ≠ h0) :
    (l.filter (fun t => t.handle != h0)).filter
        (fun t => t.kind == TimerKind.ping && t.connId == cid) =
      l.filter (fun t => t.kind == TimerKind.ping && t.connId == cid) := by
  rw [List.filter_filter]
  refine List.filter_congr ?_
  intro t ht
  by_cases hk : t.kind = TimerKind.ping
  · by_cases hcid : t.connId = cid
    · have hh := hd t ht hk hcid
      simp [hk, hcid, hh]
    · simp [hcid]
  · simp [hk]

/-! ## Claims -/

/-- C6: an external trigger fanout with a valid shared secret, object body
`m` and exclusion set `E` responds 200, delivers `m` extended with a
`before` snapshot of the cache value as it was before this call to every
connection not in `E`, delivers nothing to connections in `E`, and leaves
the cache equal to the undecorated body `m`. -/
theorem C6_external_trigger_fanout (s : ChatState) (secret rid : String)
    (fs : List (String × Val)) (E : List String)
    (r : ChatState × List Effect × Chat.HttpResponse)
    (hrid : rid ≠ "")
    (hroom : strFalsy s.roomId = true ∨ s.roomId = some rid)
    (hr : r = Chat.onRequest s secret "/broadcast" "POST" (Chat.bearer secret)
        (some ⟨some rid, some (.obj fs), some E⟩)) :
    r.2.2.status = 200 ∧
    r.1.lastMessage = some (.obj fs) ∧
    (∀ c ∈ s.conns, E.contains c.id = false →
      Effect.send c.id (spreadWithBefore (.obj fs) (s.lastMessage.getD .null)) ∈ r.2.1) ∧
    (∀ cid v, E.contains cid = true → Effect.send cid v ∉ r.2.1) := by
  subst hr
  rw [onRequest_broadcast_eq s secret rid (.obj fs) (some E) hrid rfl hroom]
  exact ⟨rfl, rfl, fun c hc he => broadcast_mem hc he,
         fun cid v he => broadcast_excluded he⟩

/-- C6 witness: the fanout behaviour at a concrete two-connection hub. -/
theorem C6_external_trigger_fanout_witness :
    (Chat.onRequest hubRoom "sec" "/broadcast" "POST" (Chat.bearer "sec")
        (some ⟨some "r1", some (.obj [("id", .str "m1")]), some ["B"]⟩)).1.lastMessage =
      some (.obj [("id", .str "m1")]) :=
  (C6_external_trigger_fanout hubRoom "sec" "r1" [("id", .str "m1")] ["B"] _
    (by decide) (Or.inr rfl) rfl).2.1

/-- C7: when the admission timer fires for a still-unauthenticated
connection, the hub emits exactly one unauthorized/timeout error and then
closes with the admission-failure code 4401, distinct from the
normal-closure code 1000 used by the idle (ping) timeout; moreover no
message other than an admission request ever changes the connection set,
so a connection that sent no admission request is still unauthenticated
when the deadline fires. -/
theorem C7_admission_timeout (s : ChatState) (h : Nat) (cid : String)
    (hu : connAuthed s.conns cid = false) :
    (Chat.fireAuthTimer s h cid).2 =
      [sendError cid "unauthorized" "auth timeout",
       Effect.close cid authFailCode "auth required"] ∧
    authFailCode ≠ normalCloseCode ∧
    (∀ (s' : ChatState) (cid' : String) (parsed : Option RawMsg)
        (check : AuthResult) (now : Int),
      (∀ msg, parsed = some msg → msg.type ≠ some "auth") →
      (Chat.onMessage s' cid' parsed check now).1.conns = s'.conns) := by
  refine ⟨?_, by decide,
    fun s' cid' parsed check now hna => onMessage_conns_nonauth s' cid' parsed check now hna⟩
  unfold Chat.fireAuthTimer
  simp [hu]

/-- C7 witness: the admission timer fires on the concrete awaiting hub. -/
theorem C7_admission_timeout_witness :
    (Chat.fireAuthTimer hubAwaiting 0 "c1").2 =
      [sendError "c1" "unauthorized" "auth timeout",
       Effect.close "c1" authFailCode "auth required"] :=
  (C7_admission_timeout hubAwaiting 0 "c1" rfl).1

/-- C8: any parsed message with a (truthy) type other than "auth" arriving
on a not-yet-authenticated connection is answered with the unauthorized
error and leaves the whole hub state — including every pending deadline —
unchanged. -/
theorem C8_preauth_rejected (s : ChatState) (cid : String) (msg : RawMsg)
    (check : AuthResult) (now : Int) (ty : String)
    (hty : msg.type = some ty) (hne : ty ≠ "") (hna : ty ≠ "auth")
    (hu : connAuthed s.conns cid = false) :
    Chat.onMessage s cid (some msg) check now =
      (s, [sendError cid "unauthorized" "auth first"]) :=
  onMessage_unauth_reject s cid msg check now ty hty hne hna hu

/-- C8 witness: a pre-auth `typing` message on the concrete awaiting hub. -/
theorem C8_preauth_rejected_witness :
    Chat.onMessage hubAwaiting "c1" (some typingReq) ⟨false, none⟩ 0 =
      (hubAwaiting, [sendError "c1" "unauthorized" "auth first"]) :=
  C8_preauth_rejected hubAwaiting "c1" typingReq ⟨false, none⟩ 0 "typing"
    rfl (by decide) (by decide) rfl

/-- C9: a `/broadcast` request whose authorization header is not the
shared-secret bearer value is rejected with status 401 and causes zero
state mutation and zero deliveries. -/
theorem C9_bad_secret_rejected (s : ChatState) (secret authHeader : String)
    (body : Option Chat.BroadcastBody)
    (h : authHeader ≠ Chat.bearer secret) :
    Chat.onRequest s secret "/broadcast" "POST" authHeader body =
      (s, [], ⟨401, .str "Unauthorized"⟩) := by
  unfold Chat.onRequest
  simp [h]

/-- C9 witness: a wrong bearer token at the concrete hub. -/
theorem C9_bad_secret_rejected_witness :
    Chat.onRequest hubRoom "sec" "/broadcast" "POST" "Bearer wrong"
        (some ⟨some "r1", some (.obj [("id", .str "m1")]), none⟩) =
      (hubRoom, [], ⟨401, .str "Unauthorized"⟩) :=
  C9_bad_secret_rejected hubRoom "sec" "Bearer wrong" _ (by decide)

/-- C10: fanout is not restricted to authenticated connections: the
`typing` fanout from an authenticated sender reaches every other live
connection (authenticated or not) and never the sender, and the external
trigger fanout reaches every live connection not in the exclusion set,
with no condition on its authentication state. -/
theorem C10_fanout_ignores_auth (s : ChatState) (cidA : String) (msg : RawMsg)
    (check : AuthResult) (now : Int)
    (hty : msg.type = some "typing") (hauth : connAuthed s.conns cidA = true) :
    (∀ c ∈ s.conns, c.id ≠ cidA →
      Effect.send c.id (Chat.typingPayload s cidA msg.isTyping now) ∈
        (Chat.onMessage s cidA (some msg) check now).2) ∧
    (∀ v, Effect.send cidA v ∉ (Chat.onMessage s cidA (some msg) check now).2) ∧
    (∀ (secret rid : String) (fs : List (String × Val)) (E : List String) (c : Conn),
      rid ≠ "" → (strFalsy s.roomId = true ∨ s.roomId = some rid) → c ∈ s.conns →
      E.contains c.id = false →
      Effect.send c.id (spreadWithBefore (.obj fs) (s.lastMessage.getD .null)) ∈
        (Chat.onRequest s secret "/broadcast" "POST" (Chat.bearer secret)
          (some ⟨some rid, some (.obj fs), some E⟩)).2.1) := by
  rw [onMessage_typing_eq s cidA msg check now hty hauth]
  refine ⟨fun c hc hne => broadcast_mem hc (by simp [hne]),
          fun v => broadcast_excluded (by simp), ?_⟩
  intro secret rid fs E c hrne hroom hc he
  rw [onRequest_broadcast_eq s secret rid (.obj fs) (some E) hrne rfl hroom]
  exact broadcast_mem hc he

/-- C10 witness: the typing fanout from authenticated `A` reaches the
not-yet-authenticated connection `B` of the concrete hub. -/
theorem C10_fanout_ignores_auth_witness :
    Effect.send "B" (Chat.typingPayload hubRoom "A" true 7) ∈
      (Chat.onMessage hubRoom "A" (some typingReq) ⟨false, none⟩ 7).2 :=
  (C10_fanout_ignores_auth hubRoom "A" typingReq ⟨false, none⟩ 7 rfl rfl).1
    ⟨"B", false, none⟩ (by decide) (by decide)

/-- C1 counterexample: on the hub bound to room "r1", an admission request
whose payload carries roomId "r2" and passes verification is NOT rejected:
it is acknowledged and rebinds the hub to "r2", mutating the bound
identifier. -/
theorem C1_counterexample :
    hubAwaiting.roomId = some "r1" ∧
    (Chat.onMessage hubAwaiting "c1" (some (authReq (some "r2") none))
        ⟨true, some "u1"⟩ 0).1.roomId = some "r2" ∧
    (Chat.onMessage hubAwaiting "c1" (some (authReq (some "r2") none))
        ⟨true, some "u1"⟩ 0).2 =
      [Effect.send "c1" (.obj [("type", .str "auth:ok")])] :=
  ⟨rfl, rfl, rfl⟩

/-- C1 amended: once the room identifier is bound, an external trigger
carrying a different roomId is rejected (400, no deliveries, state
unchanged); but an admission request whose payload carries a different
roomId and passes verification rebinds the hub to the payload identifier
(payload wins). -/
theorem C1_amended (s : ChatState) (secret r r2 : String) (m : Val)
    (excl : Option (List String)) (cid tok : String) (uid : Option String)
    (t0 : Option Int) (b : Bool) (check : AuthResult) (now : Int)
    (hbound : s.roomId = some r) (hr : r ≠ "") (hr2 : r2 ≠ "") (hne : r2 ≠ r)
    (hm : valFalsy m = false)
    (htok : tok ≠ "") (hsucc : check.success = true) :
    Chat.onRequest s secret "/broadcast" "POST" (Chat.bearer secret)
        (some ⟨some r2, some m, excl⟩) =
      (s, [], ⟨400, Chat.errResp "wrong room instance"⟩) ∧
    (Chat.onMessage s cid (some ⟨some "auth", some tok, some r2, uid, t0, b⟩)
        check now).1.roomId = some r2 := by
  constructor
  · unfold Chat.onRequest
    have hsf : strFalsy s.roomId = false := by
      rw [hbound]; simpa [strFalsy] using hr
    have hnb : (s.roomId != some r2) = true := by
      rw [hbound]; simpa using fun hcontra => hne hcontra.symm
    simp [hr2, hm, hsf, hnb]
  · have hrid : jsOr (some r2) s.roomId = some r2 := by simp [jsOr, hr2]
    unfold Chat.onMessage
    simp [strFalsy, htok, hrid, hr2, hsucc]
    repeat' (first | rfl | split | dsimp only)

/-- C1 witness: the amended statement at a concrete bound hub. -/
theorem C1_amended_witness :
    Chat.onRequest hubAwaiting "sec" "/broadcast" "POST" (Chat.bearer "sec")
        (some ⟨some "r2", some (.obj [("id", .str "m1")]), none⟩) =
      (hubAwaiting, [], ⟨400, Chat.errResp "wrong room instance"⟩) :=
  (C1_amended hubAwaiting "sec" "r1" "r2" (.obj [("id", .str "m1")]) none
    "c1" "tok" none none false ⟨true, none⟩ 0
    rfl (by decide) (by decide) (by decide) rfl (by decide) rfl).1

/-- C2: the code never represents a deadline as a persisted absolute
wake-up timestamp. Arming the admission deadline stores only a relative
10000 ms `setTimeout` record in the runtime's in-memory pending set and
its handle in the in-memory `authTimers` map, and no handler ever writes
the durable storage, so nothing about a deadline is re-derivable from
persisted state after a suspension. -/
theorem C2_deadlines_in_memory_only (s : ChatState) (c : Conn) (ext : Option String) :
    (Chat.onConnect s c ext).1.storage = s.storage ∧
    (⟨s.nextHandle, c.id, TimerKind.auth, 10000⟩ : Timer) ∈ (Chat.onConnect s c ext).1.pending ∧
    mapGet (Chat.onConnect s c ext).1.authTimers c.id = some s.nextHandle ∧
    (∀ cid parsed check now, (Chat.onMessage s cid parsed check now).1.storage = s.storage) ∧
    (∀ secret path method hdr body,
      (Chat.onRequest s secret path method hdr body).1.storage = s.storage) ∧
    (∀ h cid, (Chat.fireAuthTimer s h cid).1.storage = s.storage) ∧
    (∀ h cid, (Chat.firePingTimer s h cid).1.storage = s.storage) ∧
    (∀ cid, (Chat.onClose s cid).storage = s.storage) := by
  refine ⟨rfl, ?_, ?_, fun cid p ch n => onMessage_storage s cid p ch n,
          fun sec pa me hd bo => onRequest_storage s sec pa me hd bo, ?_, ?_, ?_⟩
  · show _ ∈ s.pending ++ [(⟨s.nextHandle, c.id, TimerKind.auth, 10000⟩ : Timer)]
    exact List.mem_append_right _ (List.mem_singleton.mpr rfl)
  · exact mapGet_mapSet s.authTimers c.id s.nextHandle
  · intro h cid; rfl
  · intro h cid
    unfold Chat.firePingTimer
    repeat' (first | rfl | split | dsimp only)
  · intro cid
    unfold Chat.onClose
    repeat' (first | rfl | split | dsimp only)

/-- C3 counterexample: on the hub where `c1` is already authenticated with
one live ping (idle) timer, a second successful admission request leaves
TWO live ping timers for `c1` — the claimed at-most-one-per-kind invariant
fails and timers are double-armed. -/
theorem C3_counterexample :
    connAuthed hubAuthed.conns "c1" = true ∧
    (pendingOfKind hubAuthed .ping "c1").length = 1 ∧
    (pendingOfKind (Chat.onMessage hubAuthed "c1" (some (authReq none none))
        ⟨true, some "u1"⟩ 0).1 .ping "c1").length = 2 :=
  ⟨rfl, rfl, rfl⟩

/-- C3 amended: a second admission request on an already-authenticated
connection never regresses the connection to unauthenticated and never
arms a second admission timer, but it arms a fresh idle (ping) timer
without cancelling the existing one, so two live idle timers for the same
connection result. -/
theorem C3_amended (s : ChatState) (cid tok : String) (rm uid : Option String)
    (t0 : Option Int) (b : Bool) (check : AuthResult) (now : Int) (rid : String)
    (c : Conn) (r : ChatState × List Effect)
    (hc : lookupConn s.conns cid = some c)
    (hauth : connAuthed s.conns cid = true)
    (htok : tok ≠ "") (hrid : jsOr rm s.roomId = some rid) (hrne : rid ≠ "")
    (hsucc : check.success = true)
    (hat : mapGet s.authTimers cid = none)
    (hr : r = Chat.onMessage s cid (some ⟨some "auth", some tok, rm, uid, t0, b⟩) check now) :
    connAuthed r.1.conns cid = true ∧
    pendingOfKind r.1 .auth cid = pendingOfKind s .auth cid ∧
    pendingOfKind r.1 .ping cid =
      pendingOfKind s .ping cid ++ [⟨s.nextHandle, cid, TimerKind.ping, 30000⟩] := by
  subst hr
  rw [onMessage_auth_success_noTimer s cid tok rm uid t0 b check now rid
        htok hrid hrne hsucc hat]
  refine ⟨connAuthed_markAuthed s.conns cid _ c hc, ?_, ?_⟩
  · show (s.pending ++ [(⟨s.nextHandle, cid, TimerKind.ping, 30000⟩ : Timer)]).filter _ =
      s.pending.filter _
    rw [List.filter_append]
    simp [pendingOfKind]
  · show (s.pending ++ [(⟨s.nextHandle, cid, TimerKind.ping, 30000⟩ : Timer)]).filter _ =
      s.pending.filter _ ++ _
    rw [List.filter_append]
    simp [pendingOfKind]

/-- C3 witness: the amended statement at the concrete re-auth hub. -/
theorem C3_amended_witness :
    pendingOfKind (Chat.onMessage hubAuthed "c1" (some ⟨some "auth", some "tok", none, none, none, false⟩)
        ⟨true, some "u1"⟩ 0).1 .ping "c1" =
      pendingOfKind hubAuthed .ping "c1" ++ [⟨6, "c1", TimerKind.ping, 30000⟩] :=
  (C3_amended hubAuthed "c1" "tok" none none none false ⟨true, some "u1"⟩ 0 "r1"
    ⟨"c1", true, some "u1"⟩ _ rfl rfl (by decide) rfl (by decide) rfl rfl rfl).2.2

/-- C4 counterexample: an admission request without a token gets the
missing-field error but the connection is NOT closed — no close effect is
emitted and the state (admission deadline included) is unchanged. -/
theorem C4_counterexample :
    Chat.onMessage hubAwaiting "c1" (some ⟨some "auth", none, some "r1", none, none, false⟩)
        ⟨true, none⟩ 0 =
      (hubAwaiting, [sendError "c1" "bad_payload" "token required"]) ∧
    (∀ cid code reason,
      Effect.close cid code reason ∉
        (Chat.onMessage hubAwaiting "c1" (some ⟨some "auth", none, some "r1", none, none, false⟩)
          ⟨true, none⟩ 0).2) :=
  ⟨rfl, by intro cid code reason h; simp [Chat.onMessage, hubAwaiting, strFalsy, sendError] at h⟩

/-- C4 amended: an admission request whose token is absent or empty fails
with the missing-field error `bad_payload`/"token required" but the
connection is not closed: the hub state is unchanged and the connection
remains awaiting auth under its admission deadline (the close with the
admission-failure code happens only when no room identifier resolves). -/
theorem C4_amended (s : ChatState) (cid : String) (tok rm uid : Option String)
    (t0 : Option Int) (b : Bool) (check : AuthResult) (now : Int)
    (htok : strFalsy tok = true) :
    Chat.onMessage s cid (some ⟨some "auth", tok, rm, uid, t0, b⟩) check now =
      (s, [sendError cid "bad_payload" "token required"]) := by
  have htok' := htok
  unfold Chat.onMessage
  simp only [strFalsy] at htok'
  simp [strFalsy, htok']

/-- C4 witness: the amended statement at the concrete awaiting hub. -/
theorem C4_amended_witness :
    Chat.onMessage hubAwaiting "c1" (some ⟨some "auth", none, some "r1", none, none, false⟩)
        ⟨true, none⟩ 0 =
      (hubAwaiting, [sendError "c1" "bad_payload" "token required"]) :=
  C4_amended hubAwaiting "c1" none (some "r1") none none false ⟨true, none⟩ 0 rfl

/-- C5 counterexample: when the verification collaborator returns an
EMPTY (but present) user identity and the client supplied a hint, the
recorded identity is the client hint — the fallback also happens when the
collaborator returned an empty identity, not only when it returned none. -/
theorem C5_counterexample :
    (AuthResult.mk true (some "")).userId ≠ none ∧
    connUserId (Chat.onMessage hubAwaiting "c1"
        (some (authReq (some "r1") (some "hint"))) ⟨true, some ""⟩ 0).1.conns "c1" =
      some "hint" :=
  ⟨by simp, rfl⟩

/-- C5 amended: a successful admission request marks the connection
authenticated, records the identity returned by the verification
collaborator falling back to the client hint when the collaborator
returned none OR an empty identity (JS `result.userId || msg.userId`),
cancels the admission deadline (map entry gone, its timeout no longer
scheduled), arms exactly one new idle (ping) deadline, and replies with
the affirmative acknowledgment exactly once. -/
theorem C5_amended (s : ChatState) (cid tok : String) (rm uid : Option String)
    (t0 : Option Int) (b : Bool) (check : AuthResult) (now : Int) (rid : String)
    (c : Conn) (h0 : Nat) (r : ChatState × List Effect)
    (hc : lookupConn s.conns cid = some c)
    (htok : tok ≠ "") (hrid : jsOr rm s.roomId = some rid) (hrne : rid ≠ "")
    (hsucc : check.success = true)
    (hat : mapGet s.authTimers cid = some h0)
    (hfresh : s.nextHandle ≠ h0)
    (hdisj : ∀ t ∈ s.pending, t.kind = TimerKind.ping → t.connId = cid → t.handle ≠ h0)
    (hr : r = Chat.onMessage s cid (some ⟨some "auth", some tok, rm, uid, t0, b⟩) check now) :
    connAuthed r.1.conns cid = true ∧
    connUserId r.1.conns cid = jsOr check.userId uid ∧
    mapGet r.1.authTimers cid = none ∧
    (∀ t ∈ r.1.pending, t.handle ≠ h0) ∧
    pendingOfKind r.1 .ping cid =
      pendingOfKind s .ping cid ++ [⟨s.nextHandle, cid, TimerKind.ping, 30000⟩] ∧
    r.2 = [Effect.send cid (.obj [("type", .str "auth:ok")])] := by
  subst hr
  rw [onMessage_auth_success_withTimer s cid tok rm uid t0 b check now rid h0
        htok hrid hrne hsucc hat]
  refine ⟨connAuthed_markAuthed s.conns cid _ c hc,
          connUserId_markAuthed s.conns cid _ c hc,
          mapGet_mapDelete s.authTimers cid, ?_, ?_, rfl⟩
  · intro t ht
    rcases List.mem_append.mp ht with hmem | hmem
    · have hb := (List.mem_filter.mp hmem).2
      simpa using hb
    · have heq : t = ⟨s.nextHandle, cid, TimerKind.ping, 30000⟩ :=
        List.mem_singleton.mp hmem
      rw [heq]
      exact hfresh
  · unfold pendingOfKind
    dsimp only
    rw [List.filter_append, filter_ping_of_disj s.pending cid h0 hdisj]
    simp

/-- C5 witness: a successful admission on the concrete awaiting hub with a
live admission timer records the collaborator identity. -/
theorem C5_amended_witness :
    connUserId (Chat.onMessage hubAwaiting "c1"
        (some ⟨some "auth", some "tok", some "r1", some "hint", none, false⟩)
        ⟨true, some "u1"⟩ 0).1.conns "c1" =
      jsOr (some "u1") (some "hint") :=
  (C5_amended hubAwaiting "c1" "tok" (some "r1") (some "hint") none false
    ⟨true, some "u1"⟩ 0 "r1" ⟨"c1", false, none⟩ 0 _ rfl (by decide) rfl
    (by decide) rfl rfl (by decide) (by decide) rfl).2.1
